import Mathlib

/-!
# Verification of the Human-Design bodygraph OCR pipeline

Shallow embedding of the planetary-number extraction and alignment pipeline
of `src/ocr/bodygraph_ocr.py` (class `BodyGraphOCR`) and of the channel /
center analyzer of `src/ocr/channel_definitions.py`.

Python strings are modelled as Lean `String` (in Lean 4.14 a `String` wraps a
`List Char`, so every helper below is written over `toList` and is fully
computable by the kernel).  Python `int(s)` is modelled as a strict decimal
parse (`pyInt`): it agrees with Python on every string producible by this
pipeline (the token regex and the literal tables yield pure ASCII-digit
strings; Python's additional tolerance for signs, underscores and unicode
digits is never exercised here).  The float comparison
`count >= len * 0.9` in `_is_ocr_data_reasonable` is modelled by the exact
inequality `9 * len ≤ 10 * count`; the two agree for every list length below
2^49 because `float(0.9) * n` rounds to a value whose integer ceiling equals
the rational one (the error `n·2.47e-17` is below half an ulp).
-/

namespace HumanDesign

/-- Python `str.isdigit`-style test used by the embedding (`\d` of the token
regex; OCR text is ASCII because tesseract runs with a digit/period
whitelist). -/
def isPyDigit (c : Char) : Bool := c.isDigit

/-- The characters Python's `\s` matches (ASCII range, the only ones that can
occur in the OCR text). -/
def isPySpace (c : Char) : Bool :=
  c = ' ' || c = '\t' || c = '\n' || c = '\x0d' || c = '\x0b' || c = '\x0c'

/-- `re.sub(r'[^\d\.\s]', ' ', text)` of `_parse_planetary_text_improved`
(bodygraph_ocr.py line 333): every character that is not a digit, a period or
whitespace becomes a space. -/
def cleanChar (c : Char) : Char :=
  if isPyDigit c || c = '.' || isPySpace c then c else ' '

/-- `re.sub(r'\s+', ' ', text_clean)` (line 334): collapse every whitespace
run to a single space.  The boolean argument records whether the previous
character belonged to a whitespace run. -/
def collapseWsAux : Bool → List Char → List Char
  | _, [] => []
  | prevSpace, c :: rest =>
    if isPySpace c then
      if prevSpace then collapseWsAux true rest
      else ' ' :: collapseWsAux true rest
    else c :: collapseWsAux false rest

def collapseWs (l : List Char) : List Char := collapseWsAux false l

/-- Python `str.strip()` (line 334): drop leading and trailing whitespace. -/
def pyStrip (l : List Char) : List Char :=
  ((l.dropWhile isPySpace).reverse.dropWhile isPySpace).reverse

/-- `re.findall(r'\d{1,2}\.\d', text_clean)` (line 337): left-to-right scan,
at each position the two-digit form is preferred (greedy `{1,2}`), a match is
consumed whole (non-overlapping), and on failure the scan advances one
character. -/
def findTokens : List Char → List String
  | c0 :: c1 :: c2 :: c3 :: rest =>
    if isPyDigit c0 && isPyDigit c1 && c2 == '.' && isPyDigit c3 then
      String.mk [c0, c1, c2, c3] :: findTokens rest
    else if isPyDigit c0 && c1 == '.' && isPyDigit c2 then
      String.mk [c0, c1, c2] :: findTokens (c3 :: rest)
    else
      findTokens (c1 :: c2 :: c3 :: rest)
  | [c0, c1, c2] =>
    if isPyDigit c0 && c1 == '.' && isPyDigit c2 then [String.mk [c0, c1, c2]]
    else []
  | _ => []

/-- Lines 333-337 of `_parse_planetary_text_improved`: clean, collapse,
strip, then extract all `\d{1,2}\.\d` tokens. -/
def extractAllNumbers (text : String) : List String :=
  findTokens (pyStrip (collapseWs (text.toList.map cleanChar)))

/-- Lines 343-346: group consecutive tokens into pairs `(token[2i],
token[2i+1])`; a trailing unpaired token is dropped. -/
def makeNumberPairs : List String → List (String × String)
  | a :: b :: rest => (a, b) :: makeNumberPairs rest
  | _ => []

/-- The token parser (`Token Parser` component): lines 333-346. -/
def parseNumberPairs (text : String) : List (String × String) :=
  makeNumberPairs (extractAllNumbers text)

/-- Strict decimal parse standing for Python `int` on the digit strings this
pipeline produces. -/
def pyInt (s : String) : Option Nat :=
  let cs := s.toList
  if cs ≠ [] && cs.all isPyDigit then
    some (cs.foldl (fun n c => 10 * n + (c.toNat - 48)) 0)
  else none

/-- Python `s.split(sep)` for a one-character separator. -/
def pySplitAux (sep : Char) : List Char → List Char → List (List Char)
  | [], acc => [acc.reverse]
  | c :: rest, acc =>
    if c = sep then acc.reverse :: pySplitAux sep rest []
    else pySplitAux sep rest (c :: acc)

def pySplit (s : String) (sep : Char) : List String :=
  (pySplitAux sep s.toList []).map String.mk

/-- `red_gate, red_line = red_num.split('.')` followed by `int(...)` (lines
358-359): the unpacking needs exactly two parts, `int` needs digit strings;
any failure raises, modelled as `none`. -/
def parseGateLineExact (s : String) : Option (Nat × Nat) :=
  match pySplit s '.' with
  | [g, l] =>
    match pyInt g, pyInt l with
    | some gv, some lv => some (gv, lv)
    | _, _ => none
  | _ => none

/-- `int(num.split('.')[0]), int(num.split('.')[1])` (lines 553-556 of
`_is_ocr_data_reasonable`): indexing tolerates extra parts; a missing part
raises IndexError, a non-digit part raises ValueError, both caught by the
caller, modelled as `none`. -/
def parseGateLineIdx (s : String) : Option (Nat × Nat) :=
  let parts := pySplit s '.'
  match parts.get? 0, parts.get? 1 with
  | some g, some l =>
    match pyInt g, pyInt l with
    | some gv, some lv => some (gv, lv)
    | _, _ => none
  | _, _ => none

/-- The fixed 13-planet sequence (`self.planetary_order`, lines 201-204). -/
def planetary_order : List String :=
  ["Sun", "Earth", "Moon", "North Node", "South Node",
   "Mercury", "Venus", "Mars", "Jupiter", "Saturn", "Uranus", "Neptune", "Pluto"]

/-- `_correct_ocr_number` (lines 416-425): the fixed dictionary of literal
digit-substitution corrections; anything else passes through. -/
def correct_ocr_number (number : String) : String :=
  if number = "87.2" then "27.5"
  else if number = "01.3" then "1.3"
  else if number = "69.5" then "9.5"
  else if number = "42.1" then "2.1"
  else number

/-- Correct both components of a pair (`_apply_ocr_corrections`, lines
404-407). -/
def correctPair (p : String × String) : String × String :=
  (correct_ocr_number p.1, correct_ocr_number p.2)

/-- `problematic_patterns` of `_is_ocr_data_reasonable` (lines 538-541). -/
def problematic_patterns : List (String × String) :=
  [("87.2", "17.6"), ("27.5", "17.6")]

/-- One pair has gate ∈ [1,64] and line ∈ [1,6] on both the red and the black
side (the body of the counting loop, lines 551-561; a parse failure is
skipped, contributing nothing). -/
def pairInRange (p : String × String) : Bool :=
  match parseGateLineIdx p.1, parseGateLineIdx p.2 with
  | some (rg, rl), some (bg, bl) =>
    decide (1 ≤ rg ∧ rg ≤ 64 ∧ 1 ≤ rl ∧ rl ≤ 6 ∧
            1 ≤ bg ∧ bg ≤ 64 ∧ 1 ≤ bl ∧ bl ≤ 6)
  | _, _ => false

/-- `reasonable_count` of `_is_ocr_data_reasonable` (lines 549-561). -/
def reasonableCount (pairs : List (String × String)) : Nat :=
  (pairs.filter pairInRange).length

/-- `_is_ocr_data_reasonable` (lines 531-567): at least 6 pairs, no
known-bad literal pattern, and `reasonable_count >= len(pairs) * 0.9`
(exactly `9·len ≤ 10·count`, see the header note on floats). -/
def is_ocr_data_reasonable (pairs : List (String × String)) : Bool :=
  if pairs.length < 6 then false
  else if pairs.any (fun p => problematic_patterns.any (fun q => decide (p = q))) then false
  else decide (9 * pairs.length ≤ 10 * reasonableCount pairs)

/-- The hardcoded substitute mapping for Mercury..Pluto (`_find_best_shift_pattern`,
lines 439-483, the "IMG_1995" custom mapping). -/
def hardcodedMapping : List (String × String) :=
  [("27.5", "7.2"), ("17.6", "56.6"), ("14.4", "1.3"), ("38.4", "58.3"),
   ("1.2", "44.3"), ("5.2", "9.5"), ("10.4", "10.2"), ("50.5", "50.4")]

/-- `expected_values` of the greedy fallback (lines 486-495). -/
def expected_values : List (String × String) :=
  [("27.5", "7.2"), ("17.6", "56.6"), ("14.4", "1.3"), ("38.4", "58.3"),
   ("1.2", "44.3"), ("5.2", "9.5"), ("10.4", "10.2"), ("50.5", "50.4")]

/-- The score of one candidate against one expected pair (lines 509-515):
3 for a match on both sides, 2 for a match on exactly one side, else 0. -/
def scorePair (expected actual : String × String) : Nat :=
  if actual.1 = expected.1 ∧ actual.2 = expected.2 then 3
  else if actual.1 = expected.1 then 2
  else if actual.2 = expected.2 then 2
  else 0

/-- The inner scan of the greedy matcher (lines 505-519): walk the candidate
pairs with their indices, skip used indices, keep the first candidate whose
score strictly exceeds the best so far (initially 0, `None`). -/
def findBestMatch (expected : String × String) :
    List (String × String) → Nat → List Nat → Nat →
    Option ((String × String) × Nat) → Option ((String × String) × Nat)
  | [], _, _, _, best => best
  | p :: rest, idx, used, bestScore, best =>
    if idx ∈ used then findBestMatch expected rest (idx + 1) used bestScore best
    else if bestScore < scorePair expected p then
      findBestMatch expected rest (idx + 1) used (scorePair expected p) (some (p, idx))
    else findBestMatch expected rest (idx + 1) used bestScore best

/-- The outer loop of the greedy matcher (lines 497-527): for each expected
pair in order take the best unused candidate, mark its index used; an
expected pair with no positive-score candidate is dropped. -/
def greedyLoop : List (String × String) → List (String × String) → List Nat →
    List (String × String)
  | [], _, _ => []
  | e :: es, pairs, used =>
    match findBestMatch e pairs 0 used 0 none with
    | some (p, i) => p :: greedyLoop es pairs (i :: used)
    | none => greedyLoop es pairs used

def greedyMatch (pairs : List (String × String)) : List (String × String) :=
  greedyLoop expected_values pairs []

/-- `_find_best_shift_pattern` (lines 427-529): accept as-is when plausible;
else, with at least 6 candidate pairs, return the hardcoded substitute
mapping; else greedy-match against `expected_values`, falling back to the
input when nothing matched (`result if result else pairs`). -/
def find_best_shift_pattern (pairs : List (String × String)) : List (String × String) :=
  if is_ocr_data_reasonable pairs then pairs
  else if 6 ≤ pairs.length then hardcodedMapping
  else
    let result := greedyMatch pairs
    if result.isEmpty then pairs else result

/-- `_apply_ocr_corrections` (lines 399-414): rewrite each component through
the correction dictionary, then run the shift-pattern search. -/
def apply_ocr_corrections (remaining : List (String × String)) : List (String × String) :=
  find_best_shift_pattern (remaining.map correctPair)

/-- `_apply_shift_correction` (lines 385-397, the later of the two
definitions, which is the one Python keeps): fewer than 6 pairs are returned
untouched, otherwise the first 5 pairs are kept verbatim and the rest go
through the correction cascade. -/
def apply_shift_correction (number_pairs : List (String × String)) :
    List (String × String) :=
  if number_pairs.length < 6 then number_pairs
  else number_pairs.take 5 ++ apply_ocr_corrections (number_pairs.drop 5)

/-- One planetary slot of the result dictionary (lines 361-372).  The code
stores the first (red-position) token of the pair under the `personality` key
with `color: 'red'` and the second (black-position) token under `design` with
`color: 'black'`. -/
structure Reading where
  personalityGate : Nat
  personalityLine : Nat
  personalityColor : String
  designGate : Nat
  designLine : Nat
  designColor : String
deriving Repr, DecidableEq

/-- Build one slot from one corrected pair (lines 358-372); a split or parse
failure raises out of the loop, modelled as `none`. -/
def mkReading (p : String × String) : Option Reading :=
  match parseGateLineExact p.1, parseGateLineExact p.2 with
  | some (rg, rl), some (bg, bl) => some ⟨rg, rl, "red", bg, bl, "black"⟩
  | _, _ => none

/-- The assignment loop (lines 354-372): corrected pair `i` goes to planet
`planetary_order[i]`, pairs beyond the 13 planets are ignored, and an
exception anywhere empties the whole result (the `except` of
`extract_planetary_info`, lines 311-313). -/
def assignPlanets : List String → List (String × String) →
    Option (List (String × Reading))
  | [], _ => some []
  | _, [] => some []
  | name :: names, p :: ps =>
    match mkReading p with
    | some r => (assignPlanets names ps).map (fun rest => (name, r) :: rest)
    | none => none

/-- The Alignment Resolver on a raw pair list: shift correction followed by
the slot assignment (the tail of `_parse_planetary_text_improved`). -/
def resolvePairs (pairs : List (String × String)) : Option (List (String × Reading)) :=
  assignPlanets planetary_order (apply_shift_correction pairs)

/-- `_parse_planetary_text_improved` (lines 328-374) end to end. -/
def parse_planetary_text_improved (text : String) : Option (List (String × Reading)) :=
  resolvePairs (parseNumberPairs text)

/-! ## Center / Channel Analyzer (channel_definitions.py and the static
tables of bodygraph_ocr.py) -/

/-- `get_activated_gates_from_numbers` (channel_definitions.py lines 61-68
and bodygraph_ocr.py lines 1344-1351): for each number string containing a
period, the integer before the first period.  (Python would raise on a
non-numeric head; such strings never reach this function, modelled by
skipping.) -/
def get_activated_gates_from_numbers (numbers : List String) : List Nat :=
  numbers.filterMap fun s =>
    if s.toList.contains '.' then ((pySplit s '.').get? 0).bind pyInt else none

/-- `gate1, gate2 = map(int, channel.split('-'))` (channel_definitions.py
line 75, bodygraph_ocr.py line 1371).  All keys of both static tables are of
the form `"<nat>-<nat>"`, so the fallback `(0, 0)` is never taken. -/
def gatesOfKey (key : String) : Nat × Nat :=
  match pySplit key '-' with
  | [a, b] =>
    match pyInt a, pyInt b with
    | some g1, some g2 => (g1, g2)
    | _, _ => (0, 0)
  | _ => (0, 0)

/-- One entry of `HUMAN_DESIGN_CHANNELS` (name, connected centers, circuit). -/
structure ChannelInfo where
  name : String
  centers : List String
  circuit : String
deriving Repr, DecidableEq

/-- `HUMAN_DESIGN_CHANNELS` (channel_definitions.py lines 8-46): the static
channel table, in insertion order. -/
def HUMAN_DESIGN_CHANNELS : List (String × ChannelInfo) :=
  [("1-8", ⟨"Channel of Inspiration", ["Head", "Throat"], "Individual"⟩),
   ("2-14", ⟨"Channel of the Beat", ["Ajna", "Sacral"], "Individual"⟩),
   ("3-60", ⟨"Channel of Mutation", ["Root", "Sacral"], "Individual"⟩),
   ("4-63", ⟨"Channel of Logic", ["Ajna", "Head"], "Individual"⟩),
   ("5-15", ⟨"Channel of Rhythm", ["Sacral", "Throat"], "Individual"⟩),
   ("6-59", ⟨"Channel of Mating", ["Sacral", "Root"], "Individual"⟩),
   ("7-31", ⟨"Channel of the Alpha", ["Throat", "G"], "Individual"⟩),
   ("9-52", ⟨"Channel of Concentration", ["Sacral", "Root"], "Individual"⟩),
   ("10-20", ⟨"Channel of Awakening", ["G", "Throat"], "Individual"⟩),
   ("10-57", ⟨"Channel of Perfected Form", ["G", "Spleen"], "Individual"⟩),
   ("11-56", ⟨"Channel of Curiosity", ["Ajna", "Throat"], "Individual"⟩),
   ("12-22", ⟨"Channel of Openness", ["Throat", "Solar Plexus"], "Individual"⟩),
   ("13-33", ⟨"Channel of the Prodigal", ["Throat", "G"], "Individual"⟩),
   ("14-2", ⟨"Channel of the Beat", ["Sacral", "Ajna"], "Individual"⟩),
   ("15-5", ⟨"Channel of Rhythm", ["Throat", "Sacral"], "Individual"⟩),
   ("16-48", ⟨"Channel of the Wavelength", ["Throat", "Spleen"], "Individual"⟩),
   ("17-62", ⟨"Channel of Acceptance", ["Ajna", "Throat"], "Individual"⟩),
   ("18-58", ⟨"Channel of Judgment", ["Root", "Spleen"], "Individual"⟩),
   ("19-49", ⟨"Channel of Synthesis", ["Root", "Solar Plexus"], "Individual"⟩),
   ("20-34", ⟨"Channel of Charisma", ["Throat", "Sacral"], "Individual"⟩),
   ("20-57", ⟨"Channel of the Brainwave", ["Throat", "Spleen"], "Individual"⟩),
   ("21-45", ⟨"Channel of the Money Line", ["Heart", "Throat"], "Individual"⟩),
   ("23-43", ⟨"Channel of Structuring", ["Throat", "Ajna"], "Individual"⟩),
   ("24-61", ⟨"Channel of Awareness", ["Head", "Ajna"], "Individual"⟩),
   ("25-51", ⟨"Channel of Initiation", ["Heart", "G"], "Individual"⟩),
   ("26-44", ⟨"Channel of Surrender", ["Throat", "Solar Plexus"], "Individual"⟩),
   ("27-50", ⟨"Channel of Preservation", ["Sacral", "Spleen"], "Individual"⟩),
   ("28-38", ⟨"Channel of Struggle", ["Root", "Solar Plexus"], "Individual"⟩),
   ("29-46", ⟨"Channel of Discovery", ["Sacral", "G"], "Individual"⟩),
   ("30-41", ⟨"Channel of Recognition", ["Solar Plexus", "Root"], "Individual"⟩),
   ("32-54", ⟨"Channel of Transformation", ["Spleen", "Root"], "Individual"⟩),
   ("35-36", ⟨"Channel of Transitoriness", ["Solar Plexus", "Throat"], "Individual"⟩),
   ("37-40", ⟨"Channel of Community", ["Heart", "Solar Plexus"], "Individual"⟩),
   ("39-55", ⟨"Channel of Emoting", ["Root", "Solar Plexus"], "Individual"⟩),
   ("42-53", ⟨"Channel of Maturation", ["Sacral", "Root"], "Individual"⟩),
   ("47-64", ⟨"Channel of Abstraction", ["Head", "Ajna"], "Individual"⟩)]

/-- One element of the list `find_defined_channels` builds
(channel_definitions.py lines 78-84). -/
structure DefinedChannel where
  channel : String
  name : String
  centers : List String
  circuit : String
  gates : List Nat
deriving Repr, DecidableEq

/-- The record appended for a defined channel entry. -/
def mkDefined (e : String × ChannelInfo) : DefinedChannel :=
  ⟨e.1, e.2.name, e.2.centers, e.2.circuit, [(gatesOfKey e.1).1, (gatesOfKey e.1).2]⟩

/-- `find_defined_channels` (channel_definitions.py lines 70-86): a channel
is kept iff both its gates are in the activated list. -/
def find_defined_channels (activated_gates : List Nat) : List DefinedChannel :=
  HUMAN_DESIGN_CHANNELS.filterMap fun e =>
    if (gatesOfKey e.1).1 ∈ activated_gates ∧ (gatesOfKey e.1).2 ∈ activated_gates then
      some (mkDefined e)
    else none

/-- `determine_defined_centers` (channel_definitions.py lines 88-96 and
bodygraph_ocr.py lines 1389-1397): the set of centers of the defined
channels.  Python builds a `set` and lists it in unspecified order; the set
itself is modelled as a `Finset`. -/
def determine_defined_centers (defined_channels : List DefinedChannel) : Finset String :=
  defined_channels.foldl (fun s ch => ch.centers.foldl (fun t c => insert c t) s) ∅

/-- `all_activated_gates = list(set(red_gates + black_gates))`
(channel_definitions.py line 106): union of the two gate lists. -/
def allActivatedGates (red_gates black_gates : List Nat) : List Nat :=
  (red_gates ++ black_gates).dedup

/-! ### The activation classification of
`summarize_conscious_unconscious_gates` (bodygraph_ocr.py lines 893-949):
`conscious_gates` come from the black numbers, `unconscious_gates` from the
red numbers, and the three classes are built by Python set difference and
intersection (lines 931-933), modelled as `Finset`s. -/

def consciousGates (black_numbers : List String) : Finset Nat :=
  (get_activated_gates_from_numbers black_numbers).toFinset

def unconsciousGates (red_numbers : List String) : Finset Nat :=
  (get_activated_gates_from_numbers red_numbers).toFinset

/-- `conscious_only = list(set(conscious_gates) - set(unconscious_gates))`. -/
def consciousOnly (red_numbers black_numbers : List String) : Finset Nat :=
  consciousGates black_numbers \ unconsciousGates red_numbers

/-- `unconscious_only = list(set(unconscious_gates) - set(conscious_gates))`. -/
def unconsciousOnly (red_numbers black_numbers : List String) : Finset Nat :=
  unconsciousGates red_numbers \ consciousGates black_numbers

/-- `both_conscious_unconscious = list(set(conscious_gates) & set(unconscious_gates))`. -/
def bothConsciousUnconscious (red_numbers black_numbers : List String) : Finset Nat :=
  consciousGates black_numbers ∩ unconsciousGates red_numbers

/-! ### The 41-entry channel table of `BodyGraphOCR` (bodygraph_ocr.py lines
47-90) and its `find_defined_channels` (lines 1366-1387), which also looks
the two centers up dynamically and keeps only channels whose centers exist
and differ. -/

/-- `self.channels` (lines 47-90): key, name, description, in insertion
order. -/
def channels : List (String × String × String) :=
  [("1-8", "Channel of Inspiration", "Brings inspiration and creative expression"),
   ("2-14", "Channel of the Beat", "Provides rhythm and timing for life"),
   ("3-60", "Channel of Mutation", "Brings mutation and transformation"),
   ("4-63", "Channel of Logic", "Provides logical thinking and questioning"),
   ("5-15", "Channel of Rhythm", "Brings natural rhythm and flow"),
   ("6-59", "Channel of Mating", "Connects people through intimacy and reproduction"),
   ("7-31", "Channel of the Alpha", "Provides leadership and influence"),
   ("9-52", "Channel of Concentration", "Brings focus and concentration"),
   ("10-20", "Channel of Awakening", "Brings awakening and transformation"),
   ("10-57", "Channel of Perfected Form", "Brings perfection and refinement"),
   ("11-56", "Channel of Curiosity", "Brings curiosity and seeking"),
   ("12-22", "Channel of Openness", "Brings emotional openness and expression"),
   ("13-33", "Channel of the Prodigal", "Brings experience and wisdom"),
   ("14-2", "Channel of the Beat", "Provides rhythm and timing for life"),
   ("15-5", "Channel of Rhythm", "Brings natural rhythm and flow"),
   ("16-48", "Channel of the Wavelength", "Brings talent and skill development"),
   ("17-62", "Channel of Acceptance", "Brings acceptance and understanding"),
   ("18-58", "Channel of Judgment", "Brings judgment and correction"),
   ("19-49", "Channel of Synthesis", "Brings synthesis and integration"),
   ("20-34", "Channel of Charisma", "Brings charisma and magnetism"),
   ("20-57", "Channel of the Brainwave", "Brings mental clarity and intuition"),
   ("21-45", "Channel of the Money Line", "Brings material resources and abundance"),
   ("22-12", "Channel of Openness", "Brings emotional openness and expression"),
   ("23-43", "Channel of Structuring", "Brings structure and organization"),
   ("24-61", "Channel of Awareness", "Brings awareness and insight"),
   ("25-51", "Channel of Initiation", "Brings initiation and new beginnings"),
   ("26-44", "Channel of Surrender", "Brings surrender and letting go"),
   ("27-50", "Channel of Preservation", "Brings preservation and nurturing"),
   ("28-38", "Channel of Struggle", "Brings struggle and determination"),
   ("29-46", "Channel of Discovery", "Brings discovery and adventure"),
   ("30-41", "Channel of Recognition", "Brings recognition and acknowledgment"),
   ("32-54", "Channel of Transformation", "Brings transformation and evolution"),
   ("33-13", "Channel of the Prodigal", "Brings experience and wisdom"),
   ("34-10", "Channel of Exploration", "Brings exploration and adventure"),
   ("34-20", "Channel of Charisma", "Brings charisma and magnetism"),
   ("34-57", "Channel of Power", "Brings power and influence"),
   ("35-36", "Channel of Transitoriness", "Brings transitoriness and change"),
   ("37-40", "Channel of Community", "Brings community and belonging"),
   ("39-55", "Channel of Emoting", "Brings emotional expression and mood"),
   ("42-53", "Channel of Maturation", "Brings maturation and development"),
   ("47-64", "Channel of Abstraction", "Brings abstract thinking and mental pressure")]

/-- `self.center_gate_layouts` (lines 161-198): gates of each of the 9
centers, in insertion order. -/
def center_gate_layouts : List (String × List Nat) :=
  [("Head", [64, 61, 63]),
   ("Ajna", [47, 24, 4, 11, 43, 17]),
   ("Throat", [62, 23, 56, 35, 12, 45, 33, 8, 31, 20, 16]),
   ("G", [1, 13, 25, 46, 2, 15, 10, 7]),
   ("Heart", [21, 40, 26, 51]),
   ("Solar Plexus", [6, 37, 22, 36, 49, 55, 30]),
   ("Spleen", [48, 57, 44, 50, 32, 28, 18]),
   ("Sacral", [34, 5, 14, 29, 27, 42, 3, 9, 59]),
   ("Root", [58, 38, 54, 53, 60, 52, 19, 39, 41])]

/-- `get_center_for_gate` (lines 1359-1364): the first center whose gate
list contains the gate, `None` otherwise. -/
def get_center_for_gate (gate_number : Nat) : Option String :=
  (center_gate_layouts.find? (fun e => gate_number ∈ e.2)).map (·.1)

/-- One element of the list `BodyGraphOCR.find_defined_channels` builds
(lines 1379-1385). -/
structure OcrDefinedChannel where
  channel : String
  name : String
  description : String
  centers : List String
  gates : List Nat
deriving Repr, DecidableEq

/-- `BodyGraphOCR.find_defined_channels` (lines 1366-1387): keep a channel
entry when both gates are activated, both center lookups succeed and the two
centers differ. -/
def find_defined_channels_ocr (activated_gates : List Nat) : List OcrDefinedChannel :=
  channels.filterMap fun e =>
    if (gatesOfKey e.1).1 ∈ activated_gates ∧ (gatesOfKey e.1).2 ∈ activated_gates then
      match get_center_for_gate (gatesOfKey e.1).1, get_center_for_gate (gatesOfKey e.1).2 with
      | some c1, some c2 =>
        if c1 ≠ c2 then
          some ⟨e.1, e.2.1, e.2.2, [c1, c2], [(gatesOfKey e.1).1, (gatesOfKey e.1).2]⟩
        else none
      | _, _ => none
    else none

/-! ## Concrete inputs and statement-side predicates -/

/-- The calibration pair list of §8 of the spec (the 13 raw pairs of the
reference image). -/
def canonicalPairs : List (String × String) :=
  [("42.5", "62.3"), ("32.3", "61.3"), ("48.6", "1.3"), ("49.4", "38.4"),
   ("16.2", "58.3"), ("20.6", "1.2"), ("9.2", "44.3"), ("34.6", "5.2"),
   ("27.5", "9.5"), ("7.2", "10.4"), ("17.6", "10.2"), ("56.6", "50.5"),
   ("14.4", "50.4")]

/-- The 13 readings the resolver produces on `canonicalPairs` (pair `i`
assigned to planet `i`; first component under the `personality`/red key,
second under the `design`/black key, as the code builds them). -/
def canonicalReadings : List (String × Reading) :=
  [("Sun", ⟨42, 5, "red", 62, 3, "black"⟩),
   ("Earth", ⟨32, 3, "red", 61, 3, "black"⟩),
   ("Moon", ⟨48, 6, "red", 1, 3, "black"⟩),
   ("North Node", ⟨49, 4, "red", 38, 4, "black"⟩),
   ("South Node", ⟨16, 2, "red", 58, 3, "black"⟩),
   ("Mercury", ⟨20, 6, "red", 1, 2, "black"⟩),
   ("Venus", ⟨9, 2, "red", 44, 3, "black"⟩),
   ("Mars", ⟨34, 6, "red", 5, 2, "black"⟩),
   ("Jupiter", ⟨27, 5, "red", 9, 5, "black"⟩),
   ("Saturn", ⟨7, 2, "red", 10, 4, "black"⟩),
   ("Uranus", ⟨17, 6, "red", 10, 2, "black"⟩),
   ("Neptune", ⟨56, 6, "red", 50, 5, "black"⟩),
   ("Pluto", ⟨14, 4, "red", 50, 4, "black"⟩)]

/-- An 11-pair raw list whose 6 pairs after the first five are OCR garbage:
the plausibility check fails and the resolver takes the hardcoded-mapping
branch. -/
def elevenGarbagePairs : List (String × String) :=
  [("42.5", "62.3"), ("32.3", "61.3"), ("48.6", "1.3"), ("49.4", "38.4"),
   ("16.2", "58.3"), ("99.9", "99.9"), ("99.9", "99.9"), ("99.9", "99.9"),
   ("99.9", "99.9"), ("99.9", "99.9"), ("99.9", "99.9")]

/-- Spec-side reading of `pairInRange`: both sides parse and have gate in
[1,64], line in [1,6]. -/
def pairInRangeProp (p : String × String) : Prop :=
  ∃ rg rl bg bl, parseGateLineIdx p.1 = some (rg, rl) ∧
    parseGateLineIdx p.2 = some (bg, bl) ∧
    1 ≤ rg ∧ rg ≤ 64 ∧ 1 ≤ rl ∧ rl ≤ 6 ∧
    1 ≤ bg ∧ bg ≤ 64 ∧ 1 ≤ bl ∧ bl ≤ 6

/-- Shape check for the token regex `\d{1,2}\.\d`. -/
def tokenShaped (s : String) : Bool :=
  match s.toList with
  | [a, b, c] => isPyDigit a && b == '.' && isPyDigit c
  | [a, b, c, d] => isPyDigit a && isPyDigit b && c == '.' && isPyDigit d
  | _ => false

/-! ## Helper lemmas -/

/-- Pointwise description of the slot-assignment loop: slot `i` of a
successful assignment pairs planet `i` with the reading of corrected pair
`i`. -/
theorem assignPlanets_get? (names : List String) (ps : List (String × String))
    (l : List (String × Reading)) (h : assignPlanets names ps = some l) (i : Nat) :
    l.get? i = (names.get? i).bind fun n =>
      (ps.get? i).bind fun p => (mkReading p).map fun r => (n, r) := by
  induction names generalizing ps l i with
  | nil =>
    unfold assignPlanets at h
    cases ps <;> simp_all
  | cons n ns ih =>
    cases ps with
    | nil =>
      unfold assignPlanets at h
      simp only [Option.some.injEq] at h
      subst h
      cases i <;> simp
    | cons p ps' =>
      unfold assignPlanets at h
      cases hr : mkReading p with
      | none => rw [hr] at h; simp at h
      | some r =>
        rw [hr] at h
        cases hrec : assignPlanets ns ps' with
        | none => rw [hrec] at h; simp at h
        | some l' =>
          rw [hrec] at h
          simp only [Option.map_some', Option.some.injEq] at h
          subst h
          cases i with
          | zero => simp [hr]
          | succ j => simpa using ih ps' l' hrec j

/-- The pair list has length `⌊tokens/2⌋`. -/
theorem makeNumberPairs_length : ∀ l : List String,
    (makeNumberPairs l).length = l.length / 2
  | [] => rfl
  | [_] => by simp [makeNumberPairs]
  | _ :: _ :: t => by
    simp only [makeNumberPairs, List.length_cons]
    rw [makeNumberPairs_length t]
    omega

/-- Pair `i` is `(token[2i], token[2i+1])`; a trailing unpaired token is
dropped. -/
theorem makeNumberPairs_get? : ∀ (l : List String) (i : Nat),
    (makeNumberPairs l).get? i =
      (l.get? (2 * i)).bind fun a => (l.get? (2 * i + 1)).map fun b => (a, b)
  | [], i => by simp [makeNumberPairs]
  | [a], i => by
    cases i with
    | zero => simp [makeNumberPairs]
    | succ j =>
      have h : 2 * (j + 1) = 2 * j + 1 + 1 := by omega
      simp [makeNumberPairs, h]
  | a :: b :: t, 0 => by simp [makeNumberPairs]
  | a :: b :: t, (i + 1) => by
    have h2 : 2 * (i + 1) = 2 * i + 1 + 1 := by omega
    have h3 : 2 * (i + 1) + 1 = 2 * i + 1 + 1 + 1 := by omega
    simp only [makeNumberPairs, h2, h3, List.get?_cons_succ]
    exact makeNumberPairs_get? t i

/-- Every token the scanner emits matches `\d{1,2}\.\d`. -/
theorem findTokens_shape : ∀ (cs : List Char) (s : String),
    s ∈ findTokens cs → tokenShaped s = true
  | c0 :: c1 :: c2 :: c3 :: rest, s, h => by
    unfold findTokens at h
    by_cases h4 : (isPyDigit c0 && isPyDigit c1 && (c2 == '.') && isPyDigit c3) = true
    · rw [if_pos h4] at h
      rcases List.mem_cons.1 h with rfl | h'
      · exact h4
      · exact findTokens_shape rest s h'
    · rw [if_neg h4] at h
      by_cases h3 : (isPyDigit c0 && (c1 == '.') && isPyDigit c2) = true
      · rw [if_pos h3] at h
        rcases List.mem_cons.1 h with rfl | h'
        · exact h3
        · exact findTokens_shape (c3 :: rest) s h'
      · rw [if_neg h3] at h
        exact findTokens_shape (c1 :: c2 :: c3 :: rest) s h
  | [c0, c1, c2], s, h => by
    unfold findTokens at h
    by_cases h3 : (isPyDigit c0 && (c1 == '.') && isPyDigit c2) = true
    · rw [if_pos h3] at h
      rcases List.mem_singleton.1 h with rfl
      exact h3
    · rw [if_neg h3] at h
      simp at h
  | [], s, h => by simp [findTokens] at h
  | [_], s, h => by simp [findTokens] at h
  | [_, _], s, h => by simp [findTokens] at h

/-- Any pair the greedy scan selects comes from the candidate list (or was
already the running best). -/
theorem findBestMatch_mem (expected : String × String) (pairs : List (String × String)) :
    ∀ (idx : Nat) (used : List Nat) (bestScore : Nat)
      (best : Option ((String × String) × Nat)) (p : String × String) (i : Nat),
      findBestMatch expected pairs idx used bestScore best = some (p, i) →
      best = some (p, i) ∨ p ∈ pairs := by
  induction pairs with
  | nil =>
    intro idx used bs best p i h
    unfold findBestMatch at h
    exact Or.inl h
  | cons q rest ih =>
    intro idx used bs best p i h
    unfold findBestMatch at h
    split at h
    · rcases ih _ _ _ _ _ _ h with h' | h'
      · exact Or.inl h'
      · exact Or.inr (List.mem_cons_of_mem _ h')
    · split at h
      · rcases ih _ _ _ _ _ _ h with h' | h'
        · have hq : q = p := by
            have := Option.some.inj h'
            exact (Prod.mk.injEq _ _ _ _ ▸ this).1
          exact Or.inr (hq ▸ List.mem_cons_self _ _)
        · exact Or.inr (List.mem_cons_of_mem _ h')
      · rcases ih _ _ _ _ _ _ h with h' | h'
        · exact Or.inl h'
        · exact Or.inr (List.mem_cons_of_mem _ h')

/-- Every pair the greedy matcher outputs is one of the candidate pairs. -/
theorem greedyLoop_mem (exps : List (String × String)) :
    ∀ (pairs : List (String × String)) (used : List Nat) (q : String × String),
      q ∈ greedyLoop exps pairs used → q ∈ pairs := by
  induction exps with
  | nil =>
    intro pairs used q h
    simp [greedyLoop] at h
  | cons e es ih =>
    intro pairs used q h
    unfold greedyLoop at h
    cases hfb : findBestMatch e pairs 0 used 0 none with
    | none =>
      rw [hfb] at h
      exact ih _ _ _ h
    | some pi =>
      obtain ⟨p, i⟩ := pi
      rw [hfb] at h
      rcases List.mem_cons.1 h with rfl | h'
      · rcases findBestMatch_mem e pairs 0 used 0 none q i hfb with h'' | h''
        · exact absurd h'' (by simp)
        · exact h''
      · exact ih _ _ _ h'

/-- With fewer than 6 candidate pairs the shift-pattern search can only
return candidate pairs (the hardcoded branch is unreachable). -/
theorem find_best_shift_pattern_mem_of_short (ps : List (String × String))
    (h6 : ps.length < 6) (q : String × String)
    (hq : q ∈ find_best_shift_pattern ps) : q ∈ ps := by
  unfold find_best_shift_pattern at hq
  have hreas : is_ocr_data_reasonable ps = false := by
    unfold is_ocr_data_reasonable
    rw [if_pos h6]
  rw [hreas] at hq
  simp only [Bool.false_eq_true, if_false] at hq
  rw [if_neg (by omega : ¬ 6 ≤ ps.length)] at hq
  by_cases hres : (greedyMatch ps).isEmpty
  · simpa [hres] using hq
  · simp only [hres, Bool.false_eq_true, if_false] at hq
    exact greedyLoop_mem _ _ _ _ hq

/-- The record built for a defined channel determines the table entry it
came from. -/
theorem mkDefined_inj {a e : String × ChannelInfo}
    (h : mkDefined a = mkDefined e) : a = e := by
  obtain ⟨a1, an, ac, aci⟩ := a
  obtain ⟨e1, en, ec, eci⟩ := e
  simp only [mkDefined, DefinedChannel.mk.injEq] at h
  obtain ⟨h1, h2, h3, h4, -⟩ := h
  subst h1
  subst h2
  subst h3
  subst h4
  rfl

/-- Folding `insert` over a list of strings collects exactly the initial set
and the list elements. -/
theorem mem_foldl_insert (l : List String) (init : Finset String) (c : String) :
    c ∈ l.foldl (fun t x => insert x t) init ↔ c ∈ init ∨ c ∈ l := by
  induction l generalizing init with
  | nil => simp
  | cons x xs ih =>
    simp only [List.foldl_cons, ih, Finset.mem_insert, List.mem_cons]
    tauto

/-- Membership in the defined-center set is membership in some defined
channel's center list. -/
theorem mem_determine_defined_centers (chs : List DefinedChannel) (c : String) :
    c ∈ determine_defined_centers chs ↔ ∃ d ∈ chs, c ∈ d.centers := by
  unfold determine_defined_centers
  have h : ∀ init : Finset String,
      c ∈ chs.foldl (fun s ch => ch.centers.foldl (fun t x => insert x t) s) init ↔
        c ∈ init ∨ ∃ d ∈ chs, c ∈ d.centers := by
    induction chs with
    | nil => intro init; simp
    | cons ch chs ih =>
      intro init
      simp only [List.foldl_cons, ih, mem_foldl_insert, List.mem_cons,
        exists_eq_or_imp]
      tauto
  simpa using h ∅

/-- The same definedness characterization for `BodyGraphOCR`'s own
`find_defined_channels`: its extra center filter is vacuous (every table
entry connects two distinct existing centers), so an entry's channel key is
reported iff both its gates are activated. -/
theorem find_defined_channels_ocr_key_iff (u : List Nat)
    (e : String × String × String) (he : e ∈ channels) :
    (∃ d ∈ find_defined_channels_ocr u, d.channel = e.1) ↔
      ((gatesOfKey e.1).1 ∈ u ∧ (gatesOfKey e.1).2 ∈ u) := by
  have hnd : (channels.map Prod.fst).Nodup := by decide
  have hc : channels.all (fun a =>
      match get_center_for_gate (gatesOfKey a.1).1,
          get_center_for_gate (gatesOfKey a.1).2 with
      | some c1, some c2 => decide (c1 ≠ c2)
      | _, _ => false) = true := by decide
  constructor
  · rintro ⟨d, hd, hde⟩
    obtain ⟨a, ha, hfa⟩ := List.mem_filterMap.1 hd
    by_cases hcond : (gatesOfKey a.1).1 ∈ u ∧ (gatesOfKey a.1).2 ∈ u
    · rw [if_pos hcond] at hfa
      have hchan : d.channel = a.1 := by
        cases hg1 : get_center_for_gate (gatesOfKey a.1).1 with
        | none => rw [hg1] at hfa; exact absurd hfa (by simp)
        | some c1 =>
          cases hg2 : get_center_for_gate (gatesOfKey a.1).2 with
          | none => rw [hg1, hg2] at hfa; exact absurd hfa (by simp)
          | some c2 =>
            rw [hg1, hg2] at hfa
            dsimp only at hfa
            by_cases hne : c1 ≠ c2
            · rw [if_pos hne] at hfa
              rw [← Option.some.inj hfa]
            · rw [if_neg hne] at hfa
              exact absurd hfa (by simp)
      have hae : a = e :=
        List.inj_on_of_nodup_map hnd ha he (by rw [← hchan]; exact hde)
      rw [← hae]
      exact hcond
    · rw [if_neg hcond] at hfa
      exact absurd hfa (by simp)
  · intro hu
    have hca := List.all_eq_true.1 hc e he
    cases hg1 : get_center_for_gate (gatesOfKey e.1).1 with
    | none => rw [hg1] at hca; simp at hca
    | some c1 =>
      cases hg2 : get_center_for_gate (gatesOfKey e.1).2 with
      | none => rw [hg1, hg2] at hca; simp at hca
      | some c2 =>
        rw [hg1, hg2] at hca
        have hne : c1 ≠ c2 := of_decide_eq_true hca
        refine ⟨⟨e.1, e.2.1, e.2.2, [c1, c2],
          [(gatesOfKey e.1).1, (gatesOfKey e.1).2]⟩, ?_, rfl⟩
        apply List.mem_filterMap.2
        refine ⟨e, he, ?_⟩
        rw [if_pos hu, hg1, hg2]
        dsimp only
        rw [if_pos hne]

/-! ## Claim theorems -/

/-- C1 (amended): values are never invented as long as fewer than 6
corrected pairs remain after the first five (total length < 11): every
output pair is then an input pair or the correction-table image of one, and
unmatched slots are simply absent.  But when at least 6 corrected pairs
remain and fail the plausibility check, the resolver replaces slots 6-13
wholesale with the hardcoded literal answer set, which is not derived from
the input. -/
theorem c1_provenance (pairs : List (String × String)) :
    (pairs.length < 11 →
      ∀ q ∈ apply_shift_correction pairs, ∃ p ∈ pairs, q = p ∨ q = correctPair p) ∧
    (11 ≤ pairs.length →
      is_ocr_data_reasonable ((pairs.drop 5).map correctPair) = false →
      apply_shift_correction pairs = pairs.take 5 ++ hardcodedMapping) := by
  constructor
  · intro hlen q hq
    unfold apply_shift_correction at hq
    by_cases h6 : pairs.length < 6
    · rw [if_pos h6] at hq
      exact ⟨q, hq, Or.inl rfl⟩
    · rw [if_neg h6] at hq
      rcases List.mem_append.1 hq with h | h
      · exact ⟨q, List.take_subset 5 pairs h, Or.inl rfl⟩
      · unfold apply_ocr_corrections at h
        have hclen : ((pairs.drop 5).map correctPair).length < 6 := by
          rw [List.length_map, List.length_drop]
          omega
        have hq' : q ∈ (pairs.drop 5).map correctPair :=
          find_best_shift_pattern_mem_of_short _ hclen q h
        rcases List.mem_map.1 hq' with ⟨p, hp, rfl⟩
        exact ⟨p, List.drop_subset 5 pairs hp, Or.inr rfl⟩
  · intro hlen hreas
    unfold apply_shift_correction
    rw [if_neg (by omega : ¬ pairs.length < 6)]
    unfold apply_ocr_corrections find_best_shift_pattern
    rw [hreas]
    simp only [Bool.false_eq_true, if_false]
    rw [if_pos]
    rw [List.length_map, List.length_drop]
    omega

/-- C1 counterexample: on an 11-pair raw list whose 6 pairs after the first
five are out-of-range garbage, the resolver outputs 13 fully populated
pairs (not a partial mapping) and fills the Mercury slot with
`("27.5","7.2")`, a value that is neither one of the parsed pairs nor the
correction image of one — it is invented by the hardcoded substitute
mapping. -/
theorem c1_hardcoded_invents_values :
    (apply_shift_correction elevenGarbagePairs).length = 13 ∧
    ("27.5", "7.2") ∈ apply_shift_correction elevenGarbagePairs ∧
    (∀ p ∈ elevenGarbagePairs,
      ¬((("27.5", "7.2") : String × String) = p ∨
        (("27.5", "7.2") : String × String) = correctPair p)) := by
  decide

/-- C2 (code evaluation at the failing input): on the canonical 13-pair
input, the resolver's Sun slot carries the FIRST token of the pair
(`"42.5"`, the red column) under the `personality` key, tagged
`color: 'red'`, and the second token (`"62.3"`, the black column) under
`design`.  The claim (and the code's own comments at bodygraph_ocr.py
896-898) say `personality` comes from the black column and `design` from
the red column; the code stores them the other way around. -/
theorem c2_personality_holds_first_red_token :
    (resolvePairs canonicalPairs).bind List.head? =
      some ("Sun", ⟨42, 5, "red", 62, 3, "black"⟩) := by decide

/-- C3 (amended): the resolver performs no per-token range validation: a
pair list with fewer than 6 pairs is returned entirely unmodified, so
out-of-range gate.line values — including in the first 5 pairs — are carried
into the final planetary reading as-is. -/
theorem c3_no_range_validation (pairs : List (String × String))
    (h : pairs.length < 6) : apply_shift_correction pairs = pairs := by
  unfold apply_shift_correction
  simp [h]

theorem c3_no_range_validation_witness :
    apply_shift_correction [(("99.9" : String), ("88.8" : String))] =
      [("99.9", "88.8")] :=
  c3_no_range_validation [("99.9", "88.8")] (by decide)

/-- C3 counterexample: the parsed token `"99.9"` (gate 99 > 64, line 9 > 6)
is carried unmodified into the populated Sun slot of the final planetary
reading. -/
theorem c3_out_of_range_reaches_output :
    resolvePairs [("99.9", "88.8")] =
      some [("Sun", ⟨99, 9, "red", 88, 8, "black"⟩)] ∧ 64 < 99 ∧ 6 < 9 := by
  decide

/-- C4: on the canonical 13-pair input the plausibility check passes, the
correction dictionary rewrites nothing, the pairs are accepted unchanged,
and the output assigns all 13 pairs in order to Sun..Pluto. -/
theorem c4_canonical_accepted_verbatim :
    is_ocr_data_reasonable ((canonicalPairs.drop 5).map correctPair) = true ∧
    (canonicalPairs.drop 5).map correctPair = canonicalPairs.drop 5 ∧
    apply_shift_correction canonicalPairs = canonicalPairs ∧
    resolvePairs canonicalPairs = some canonicalReadings := by
  decide

/-- C5: the first 5 resolved slots are always the first 5 parsed pairs
verbatim — `apply_shift_correction` keeps `pairs[0:5]` untouched, and slot
`i < 5` of a successful resolution is planet `i` paired with the reading of
raw pair `i` (no correction, pattern matching or override applied). -/
theorem c5_first_five_slots_verbatim (pairs : List (String × String)) :
    (apply_shift_correction pairs).take 5 = pairs.take 5 ∧
    ∀ l, resolvePairs pairs = some l → ∀ i, i < 5 →
      l.get? i = (planetary_order.get? i).bind fun n =>
        (pairs.get? i).bind fun p => (mkReading p).map fun r => (n, r) := by
  have htake : (apply_shift_correction pairs).take 5 = pairs.take 5 := by
    unfold apply_shift_correction
    split
    · rfl
    · rename_i hlen
      rw [List.take_append_of_le_length, List.take_take]
      · simp
      · rw [List.length_take]
        omega
  refine ⟨htake, ?_⟩
  intro l hl i hi
  have h1 : ((apply_shift_correction pairs).take 5).get? i =
      (apply_shift_correction pairs).get? i := List.get?_take hi
  have h2 : (pairs.take 5).get? i = pairs.get? i := List.get?_take hi
  have hget : (apply_shift_correction pairs).get? i = pairs.get? i := by
    rw [← h1, htake, h2]
  have hmain := assignPlanets_get? planetary_order (apply_shift_correction pairs) l hl i
  rw [hget] at hmain
  exact hmain

/-- C6: the plausibility check accepts exactly when there are at least 6
pairs, no pair equals a known-bad literal pattern, and at least 90% of the
pairs are in range on both sides (`9·len ≤ 10·count`); acceptance returns
the pairs as-is, and failure routes to the hardcoded mapping (≥6 pairs) or
the greedy matcher (<6 pairs). -/
theorem c6_plausibility_characterization (pairs : List (String × String)) :
    (is_ocr_data_reasonable pairs = true ↔
      (6 ≤ pairs.length ∧ (∀ p ∈ pairs, p ∉ problematic_patterns) ∧
        9 * pairs.length ≤ 10 * reasonableCount pairs)) ∧
    (∀ p : String × String, pairInRange p = true ↔ pairInRangeProp p) ∧
    (is_ocr_data_reasonable pairs = true → find_best_shift_pattern pairs = pairs) ∧
    (is_ocr_data_reasonable pairs = false → 6 ≤ pairs.length →
      find_best_shift_pattern pairs = hardcodedMapping) ∧
    (is_ocr_data_reasonable pairs = false → pairs.length < 6 →
      find_best_shift_pattern pairs =
        if (greedyMatch pairs).isEmpty then pairs else greedyMatch pairs) := by
  refine ⟨?_, ?_, ?_, ?_, ?_⟩
  · unfold is_ocr_data_reasonable
    by_cases h1 : pairs.length < 6
    · simp only [if_pos h1]
      constructor
      · intro h; exact absurd h (by simp)
      · intro ⟨h, _⟩; omega
    · rw [if_neg h1]
      by_cases h2 : pairs.any
          (fun p => problematic_patterns.any (fun q => decide (p = q))) = true
      · rw [if_pos h2]
        simp only [List.any_eq_true, decide_eq_true_eq] at h2
        obtain ⟨p, hp, q, hq, rfl⟩ := h2
        constructor
        · intro h; exact absurd h (by simp)
        · intro ⟨_, hno, _⟩; exact absurd hq (hno p hp)
      · rw [if_neg h2]
        have hno : ∀ p ∈ pairs, p ∉ problematic_patterns := by
          intro p hp hmem
          exact h2 (List.any_eq_true.2 ⟨p, hp, List.any_eq_true.2 ⟨p, hmem, by simp⟩⟩)
        simp only [decide_eq_true_eq]
        exact ⟨fun h => ⟨by omega, hno, h⟩, fun ⟨_, _, h⟩ => h⟩
  · intro p
    constructor
    · intro h
      unfold pairInRange at h
      cases h1 : parseGateLineIdx p.1 with
      | none => rw [h1] at h; simp at h
      | some v1 =>
        cases h2 : parseGateLineIdx p.2 with
        | none =>
          obtain ⟨rg, rl⟩ := v1
          rw [h1, h2] at h
          simp at h
        | some v2 =>
          obtain ⟨rg, rl⟩ := v1
          obtain ⟨bg, bl⟩ := v2
          rw [h1, h2] at h
          simp only [decide_eq_true_eq] at h
          exact ⟨rg, rl, bg, bl, h1, h2, h⟩
    · rintro ⟨rg, rl, bg, bl, h1, h2, h⟩
      unfold pairInRange
      rw [h1, h2]
      simpa using h
  · intro h
    unfold find_best_shift_pattern
    rw [if_pos h]
  · intro h hlen
    unfold find_best_shift_pattern
    rw [h]
    simp only [Bool.false_eq_true, if_false]
    rw [if_pos hlen]
  · intro h hlen
    unfold find_best_shift_pattern
    rw [h]
    simp only [Bool.false_eq_true, if_false]
    rw [if_neg (by omega : ¬ 6 ≤ pairs.length)]

/-- C7: the token parser groups the extracted tokens into consecutive pairs
`(token[2i], token[2i+1])`: the pair list has length `⌊tokens/2⌋`, a
trailing unpaired token is dropped, every extracted token matches
`\d{1,2}\.\d`, and no gate/line range validation happens at this stage (the
pairs carry the tokens verbatim). -/
theorem c7_token_grouping (text : String) (l : List String) (i : Nat) :
    parseNumberPairs text = makeNumberPairs (extractAllNumbers text) ∧
    (makeNumberPairs l).length = l.length / 2 ∧
    ((makeNumberPairs l).get? i =
      (l.get? (2 * i)).bind fun a => (l.get? (2 * i + 1)).map fun b => (a, b)) ∧
    (∀ s ∈ extractAllNumbers text, tokenShaped s = true) :=
  ⟨rfl, makeNumberPairs_length l, makeNumberPairs_get? l i,
    fun s hs => findTokens_shape _ s hs⟩

/-- C8: a channel of the 36-entry static table is marked defined iff both
of its gates lie in the union of the design-derived and personality-derived
gate sets; the defined-center set is exactly the union, over the defined
channels, of their connected-center lists; the definedness test is
symmetric in the order the two gates are listed. -/
theorem c8_channel_center_analyzer (red_gates black_gates : List Nat) :
    (∀ e ∈ HUMAN_DESIGN_CHANNELS,
      (mkDefined e ∈ find_defined_channels (allActivatedGates red_gates black_gates) ↔
        ((gatesOfKey e.1).1 ∈ red_gates ∨ (gatesOfKey e.1).1 ∈ black_gates) ∧
        ((gatesOfKey e.1).2 ∈ red_gates ∨ (gatesOfKey e.1).2 ∈ black_gates))) ∧
    (∀ c : String,
      (c ∈ determine_defined_centers
          (find_defined_channels (allActivatedGates red_gates black_gates)) ↔
        ∃ d ∈ find_defined_channels (allActivatedGates red_gates black_gates),
          c ∈ d.centers)) ∧
    (∀ (u : List Nat) (e : String × ChannelInfo),
      (((gatesOfKey e.1).1 ∈ u ∧ (gatesOfKey e.1).2 ∈ u) ↔
        ((gatesOfKey e.1).2 ∈ u ∧ (gatesOfKey e.1).1 ∈ u))) ∧
    (∀ (u : List Nat), ∀ e ∈ channels,
      ((∃ d ∈ find_defined_channels_ocr u, d.channel = e.1) ↔
        ((gatesOfKey e.1).1 ∈ u ∧ (gatesOfKey e.1).2 ∈ u))) ∧
    HUMAN_DESIGN_CHANNELS.length = 36 := by
  have hu : ∀ x : Nat, x ∈ allActivatedGates red_gates black_gates ↔
      x ∈ red_gates ∨ x ∈ black_gates := by
    intro x
    unfold allActivatedGates
    rw [List.mem_dedup, List.mem_append]
  refine ⟨?_, ?_, ?_, fun u e he => find_defined_channels_ocr_key_iff u e he, by decide⟩
  · intro e he
    constructor
    · intro h
      obtain ⟨a, ha, hfa⟩ := List.mem_filterMap.1 h
      by_cases hc : (gatesOfKey a.1).1 ∈ allActivatedGates red_gates black_gates ∧
          (gatesOfKey a.1).2 ∈ allActivatedGates red_gates black_gates
      · rw [if_pos hc] at hfa
        have hae : a = e := mkDefined_inj (Option.some.inj hfa)
        subst hae
        exact ⟨(hu _).1 hc.1, (hu _).1 hc.2⟩
      · rw [if_neg hc] at hfa
        exact absurd hfa (by simp)
    · intro h
      apply List.mem_filterMap.2
      refine ⟨e, he, ?_⟩
      rw [if_pos ⟨(hu _).2 h.1, (hu _).2 h.2⟩]
  · intro c
    exact mem_determine_defined_centers _ c
  · intro u e
    exact ⟨fun h => ⟨h.2, h.1⟩, fun h => ⟨h.2, h.1⟩⟩

/-- C9: the activation classification partitions the full activated-gate
set: `both` is the intersection of the personality-derived (black) and
design-derived (red) gate sets, `conscious-only` and `unconscious-only` are
the two set differences, the three classes are pairwise disjoint and their
union is the union of the two sets. -/
theorem c9_activation_partition (red_numbers black_numbers : List String) :
    (consciousOnly red_numbers black_numbers ∪
        unconsciousOnly red_numbers black_numbers ∪
        bothConsciousUnconscious red_numbers black_numbers =
      consciousGates black_numbers ∪ unconsciousGates red_numbers) ∧
    (∀ g, g ∈ bothConsciousUnconscious red_numbers black_numbers ↔
      g ∈ consciousGates black_numbers ∧ g ∈ unconsciousGates red_numbers) ∧
    (∀ g, g ∈ consciousOnly red_numbers black_numbers ↔
      g ∈ consciousGates black_numbers ∧ g ∉ unconsciousGates red_numbers) ∧
    (∀ g, g ∈ unconsciousOnly red_numbers black_numbers ↔
      g ∈ unconsciousGates red_numbers ∧ g ∉ consciousGates black_numbers) ∧
    Disjoint (consciousOnly red_numbers black_numbers)
      (unconsciousOnly red_numbers black_numbers) ∧
    Disjoint (consciousOnly red_numbers black_numbers)
      (bothConsciousUnconscious red_numbers black_numbers) ∧
    Disjoint (unconsciousOnly red_numbers black_numbers)
      (bothConsciousUnconscious red_numbers black_numbers) := by
  unfold consciousOnly unconsciousOnly bothConsciousUnconscious
  refine ⟨?_, ?_, ?_, ?_, ?_, ?_, ?_⟩
  · ext g
    simp only [Finset.mem_union, Finset.mem_sdiff, Finset.mem_inter]
    tauto
  · intro g
    simp only [Finset.mem_inter]
  · intro g
    simp only [Finset.mem_sdiff]
  · intro g
    simp only [Finset.mem_sdiff]
  · rw [Finset.disjoint_left]
    intro g h1 h2
    rw [Finset.mem_sdiff] at h1 h2
    exact h2.2 h1.1
  · rw [Finset.disjoint_left]
    intro g h1 h2
    rw [Finset.mem_sdiff] at h1
    rw [Finset.mem_inter] at h2
    exact h1.2 h2.2
  · rw [Finset.disjoint_left]
    intro g h1 h2
    rw [Finset.mem_sdiff] at h1
    rw [Finset.mem_inter] at h2
    exact h1.2 h2.1

/-- C10: the static channel table of `BodyGraphOCR` has 41 entries, five
channels appear under both gate orientations, and on the activated set
`{2, 14}` its `find_defined_channels` returns two entries for the one
unordered gate pair {2, 14}. -/
theorem c10_duplicate_channel_orientations :
    channels.length = 41 ∧
    "2-14" ∈ channels.map Prod.fst ∧ "14-2" ∈ channels.map Prod.fst ∧
    "5-15" ∈ channels.map Prod.fst ∧ "15-5" ∈ channels.map Prod.fst ∧
    "12-22" ∈ channels.map Prod.fst ∧ "22-12" ∈ channels.map Prod.fst ∧
    "13-33" ∈ channels.map Prod.fst ∧ "33-13" ∈ channels.map Prod.fst ∧
    "20-34" ∈ channels.map Prod.fst ∧ "34-20" ∈ channels.map Prod.fst ∧
    (find_defined_channels_ocr [2, 14]).map (·.channel) = ["2-14", "14-2"] ∧
    (find_defined_channels_ocr [2, 14]).length = 2 ∧
    (find_defined_channels_ocr [2, 14]).map (·.gates) = [[2, 14], [14, 2]] := by
  decide

end HumanDesign
